import Mathlib

/-!
Verification of the coolpy compiler front end (a Cool-language parser and
semantic-analyser skeleton written in Python with PLY) against its
natural-language specification.

The grammar of `src/parser.py` is embedded as an inductive derivation
relation `Derives` over the token alphabet of `src/lexer.py`; each
constructor is one grammar production together with the semantic action of
the corresponding `p_...` method, building the dynamically typed AST values
of `src/ast.py` (modelled by `PyObj`).  The error hooks `p_error` and
`t_error`, the precedence table, and the `transform` method of
`src/semanalyser.py` are embedded as functions.  Passes of the class
hierarchy builder whose bodies are absent from the sources are modelled
from the spec and marked as such in their doc comments.
-/

/-- Token alphabet of the Cool lexer (`src/lexer.py`: the `tokens` list plus
the reserved keywords).  `TYPE`, `ID`, `INTEGER`, `STRING` and `BOOLEAN`
carry the token value the lexer attaches. -/
inductive Tok : Type where
  | CLASS | INHERITS | IF | THEN | ELSE | FI | WHILE | LOOP | POOL | LET | IN
  | CASE | OF | ESAC | NEW | SELF | ISVOID
  | TYPE (v : String)
  | ID (v : String)
  | INTEGER (n : Int)
  | STRING (s : String)
  | BOOLEAN (b : Bool)
  | ACTION | LPAREN | RPAREN | LBRACE | RBRACE | COLON | COMMA | DOT
  | SEMICOLON | AT | PLUS | MINUS | MULTIPLY | DIVIDE | EQ | LT | LTEQ
  | ASSIGN | INT_COMP | NOT
  deriving DecidableEq

/-- Dynamically typed Python values as the parser's semantic actions build
them: primitive values (`vstr`, `vint`, `vbool`, `vnone`, `vtuple`) and one
constructor per AST node class of `src/ast.py`, with the fields in the
order of that class's `__init__`.  Fields are `PyObj` because Python is
dynamically typed: some semantic actions of `src/parser.py` store plain
strings where sibling actions store AST nodes. -/
inductive PyObj : Type where
  | vstr (s : String)
  | vint (n : Int)
  | vbool (b : Bool)
  | vnone
  | vtuple (xs : List PyObj)
  | Program (classes : PyObj)
  | Class (name parent features : PyObj)
  | Method (name formal_parameters return_type body : PyObj)
  | Attribute (name attribute_type expression : PyObj)
  | FormalParameter (name parameter_type : PyObj)
  | Object (name : PyObj)
  | Self (name : PyObj)
  | IntegerLit (content : PyObj)
  | StringLit (content : PyObj)
  | BooleanLit (content : PyObj)
  | NewObject (new_type : PyObj)
  | IsVoid (expression : PyObj)
  | Assignment (instance_ expression : PyObj)
  | Block (expression_list : PyObj)
  | DynamicDispatch (instance_ method arguments : PyObj)
  | StaticDispatch (instance_ dispatch_type method arguments : PyObj)
  | Let (instance_ return_type expression body : PyObj)
  | If (predicate then_body else_body : PyObj)
  | WhileLoop (predicate body : PyObj)
  | Case (expression actions : PyObj)
  | IntegerComplement (integer_expression : PyObj)
  | BooleanComplement (boolean_expression : PyObj)
  | Addition (first second : PyObj)
  | Subtraction (first second : PyObj)
  | Multiplication (first second : PyObj)
  | Division (first second : PyObj)
  | Equal (first second : PyObj)
  | LessThan (first second : PyObj)
  | LessThanOrEqual (first second : PyObj)

/-- The nonterminals of the grammar of `src/parser.py` (`clazz` stands for
the nonterminal written `class` there, a Lean keyword). -/
inductive NT : Type where
  | program
  | class_list
  | clazz
  | features_list_optional
  | features_list
  | feature
  | formal_parameters_list
  | formal_parameter
  | expression
  | block_list
  | arguments_list_optional
  | arguments_list
  | let_expression
  | nested_lets
  | actions_list
  | action
  | empty
  deriving DecidableEq

/-- `Derives nt ts v`: the token string `ts` derives from nonterminal `nt`
with semantic value `v`.  One constructor per grammar production of
`src/parser.py`, named after the `p_...` method that declares it (numbered
when a method declares several alternatives), with the value computed
exactly as that method's body computes `parse[0]`.  Keyword and punctuation
tokens carry their matched text as value, so the alternatives of
`p_expression_let_simple`/`p_expression_let_initialized` that read
`parse[2]` off a `COMMA` token store the string `","`. -/
inductive Derives : NT → List Tok → PyObj → Prop where
  | p_program {ts cs} :
      Derives .class_list ts (.vtuple cs) →
      Derives .program ts (.Program (.vtuple cs))
  | p_class_list_1 {ts c} :
      Derives .clazz ts c →
      Derives .class_list (ts ++ [.SEMICOLON]) (.vtuple [c])
  | p_class_list_2 {ts1 cs ts2 c} :
      Derives .class_list ts1 (.vtuple cs) →
      Derives .clazz ts2 c →
      Derives .class_list (ts1 ++ ts2 ++ [.SEMICOLON]) (.vtuple (cs ++ [c]))
  | p_class {n fts fs} :
      Derives .features_list_optional fts fs →
      Derives .clazz (.CLASS :: .TYPE n :: .LBRACE :: (fts ++ [.RBRACE]))
        (.Class (.vstr n) (.vstr "Object") fs)
  | p_class_inherits {n p fts fs} :
      Derives .features_list_optional fts fs →
      Derives .clazz
        (.CLASS :: .TYPE n :: .INHERITS :: .TYPE p :: .LBRACE :: (fts ++ [.RBRACE]))
        (.Class (.vstr n) (.vstr p) fs)
  | p_features_list_optional_1 {ts fs} :
      Derives .features_list ts fs →
      Derives .features_list_optional ts fs
  | p_features_list_optional_2 {ts v} :
      Derives .empty ts v →
      Derives .features_list_optional ts (.vtuple [])
  | p_features_list_1 {ts f} :
      Derives .feature ts f →
      Derives .features_list (ts ++ [.SEMICOLON]) (.vtuple [f])
  | p_features_list_2 {ts1 fs ts2 f} :
      Derives .features_list ts1 (.vtuple fs) →
      Derives .feature ts2 f →
      Derives .features_list (ts1 ++ ts2 ++ [.SEMICOLON]) (.vtuple (fs ++ [f]))
  | p_feature_method {m pts ps rt bts b} :
      Derives .formal_parameters_list pts ps →
      Derives .expression bts b →
      Derives .feature
        (.ID m :: .LPAREN ::
          (pts ++ .RPAREN :: .COLON :: .TYPE rt :: .LBRACE :: (bts ++ [.RBRACE])))
        (.Method (.vstr m) ps (.vstr rt) b)
  | p_feature_method_no_formal_paramters {m rt bts b} :
      Derives .expression bts b →
      Derives .feature
        (.ID m :: .LPAREN :: .RPAREN :: .COLON :: .TYPE rt :: .LBRACE ::
          (bts ++ [.RBRACE]))
        (.Method (.vstr m) (.vtuple []) (.vstr rt) b)
  | p_feature_attribute_initialized {a t ets e} :
      Derives .expression ets e →
      Derives .feature (.ID a :: .COLON :: .TYPE t :: .ASSIGN :: ets)
        (.Attribute (.vstr a) (.vstr t) e)
  | p_feature_attribute {a t} :
      Derives .feature [.ID a, .COLON, .TYPE t]
        (.Attribute (.vstr a) (.vstr t) .vnone)
  | p_formal_paramters_list_1 {ts p} :
      Derives .formal_parameter ts p →
      Derives .formal_parameters_list ts (.vtuple [p])
  | p_formal_paramters_list_2 {ts1 ps ts2 p} :
      Derives .formal_parameters_list ts1 (.vtuple ps) →
      Derives .formal_parameter ts2 p →
      Derives .formal_parameters_list (ts1 ++ .COMMA :: ts2) (.vtuple (ps ++ [p]))
  | p_formal_paramter {a t} :
      Derives .formal_parameter [.ID a, .COLON, .TYPE t]
        (.FormalParameter (.vstr a) (.vstr t))
  | p_expression_object_identifier {a} :
      Derives .expression [.ID a] (.Object (.vstr a))
  | p_expression_integer_constant {n} :
      Derives .expression [.INTEGER n] (.IntegerLit (.vint n))
  | p_expression_boolean_constant {b} :
      Derives .expression [.BOOLEAN b] (.BooleanLit (.vbool b))
  | p_expression_string_constant {s} :
      Derives .expression [.STRING s] (.StringLit (.vstr s))
  | p_expression_self :
      Derives .expression [.SELF] (.Self (.vstr "SELF"))
  | p_expression_block {ts es} :
      Derives .block_list ts es →
      Derives .expression (.LBRACE :: (ts ++ [.RBRACE])) (.Block es)
  | p_block_list_1 {ts e} :
      Derives .expression ts e →
      Derives .block_list (ts ++ [.SEMICOLON]) (.vtuple [e])
  | p_block_list_2 {ts1 es ts2 e} :
      Derives .block_list ts1 (.vtuple es) →
      Derives .expression ts2 e →
      Derives .block_list (ts1 ++ ts2 ++ [.SEMICOLON]) (.vtuple (es ++ [e]))
  | p_expression_assignment {a ets e} :
      Derives .expression ets e →
      Derives .expression (.ID a :: .ASSIGN :: ets)
        (.Assignment (.Object (.vstr a)) e)
  | p_expression_dispatch {ots o m ats as_} :
      Derives .expression ots o →
      Derives .arguments_list_optional ats as_ →
      Derives .expression (ots ++ .DOT :: .ID m :: .LPAREN :: (ats ++ [.RPAREN]))
        (.DynamicDispatch o (.vstr m) as_)
  | p_arguments_list_optional_1 {ts as_} :
      Derives .arguments_list ts as_ →
      Derives .arguments_list_optional ts as_
  | p_arguments_list_optional_2 {ts v} :
      Derives .empty ts v →
      Derives .arguments_list_optional ts (.vtuple [])
  | p_arguments_list_1 {ts e} :
      Derives .expression ts e →
      Derives .arguments_list ts (.vtuple [e])
  | p_arguments_list_2 {ts1 es ts2 e} :
      Derives .arguments_list ts1 (.vtuple es) →
      Derives .expression ts2 e →
      Derives .arguments_list (ts1 ++ .COMMA :: ts2) (.vtuple (es ++ [e]))
  | p_expression_static_dispatch {ots o t m ats as_} :
      Derives .expression ots o →
      Derives .arguments_list_optional ats as_ →
      Derives .expression
        (ots ++ .AT :: .TYPE t :: .DOT :: .ID m :: .LPAREN :: (ats ++ [.RPAREN]))
        (.StaticDispatch o (.vstr t) (.vstr m) as_)
  | p_expression_self_dispatch {m ats as_} :
      Derives .arguments_list_optional ats as_ →
      Derives .expression (.ID m :: .LPAREN :: (ats ++ [.RPAREN]))
        (.DynamicDispatch (.Self (.vstr "SELF")) (.vstr m) as_)
  | p_expression_math_operations_plus {ts1 e1 ts2 e2} :
      Derives .expression ts1 e1 →
      Derives .expression ts2 e2 →
      Derives .expression (ts1 ++ .PLUS :: ts2) (.Addition e1 e2)
  | p_expression_math_operations_minus {ts1 e1 ts2 e2} :
      Derives .expression ts1 e1 →
      Derives .expression ts2 e2 →
      Derives .expression (ts1 ++ .MINUS :: ts2) (.Subtraction e1 e2)
  | p_expression_math_operations_multiply {ts1 e1 ts2 e2} :
      Derives .expression ts1 e1 →
      Derives .expression ts2 e2 →
      Derives .expression (ts1 ++ .MULTIPLY :: ts2) (.Multiplication e1 e2)
  | p_expression_math_operations_divide {ts1 e1 ts2 e2} :
      Derives .expression ts1 e1 →
      Derives .expression ts2 e2 →
      Derives .expression (ts1 ++ .DIVIDE :: ts2) (.Division e1 e2)
  | p_expression_math_comparisons_lt {ts1 e1 ts2 e2} :
      Derives .expression ts1 e1 →
      Derives .expression ts2 e2 →
      Derives .expression (ts1 ++ .LT :: ts2) (.LessThan e1 e2)
  | p_expression_math_comparisons_lteq {ts1 e1 ts2 e2} :
      Derives .expression ts1 e1 →
      Derives .expression ts2 e2 →
      Derives .expression (ts1 ++ .LTEQ :: ts2) (.LessThanOrEqual e1 e2)
  | p_expression_math_comparisons_eq {ts1 e1 ts2 e2} :
      Derives .expression ts1 e1 →
      Derives .expression ts2 e2 →
      Derives .expression (ts1 ++ .EQ :: ts2) (.Equal e1 e2)
  | p_expression_with_parenthesis {ts e} :
      Derives .expression ts e →
      Derives .expression (.LPAREN :: (ts ++ [.RPAREN])) e
  | p_expression_if_conditional {pts p tts t ets e} :
      Derives .expression pts p →
      Derives .expression tts t →
      Derives .expression ets e →
      Derives .expression (.IF :: (pts ++ .THEN :: (tts ++ .ELSE :: (ets ++ [.FI]))))
        (.If p t e)
  | p_expression_while_loop {pts p bts b} :
      Derives .expression pts p →
      Derives .expression bts b →
      Derives .expression (.WHILE :: (pts ++ .LOOP :: (bts ++ [.POOL])))
        (.WhileLoop p b)
  | p_expression_let {ts v} :
      Derives .let_expression ts v →
      Derives .expression ts v
  | p_expression_let_simple_1 {a t bts b} :
      Derives .expression bts b →
      Derives .let_expression (.LET :: .ID a :: .COLON :: .TYPE t :: .IN :: bts)
        (.Let (.vstr a) (.vstr t) .vnone b)
  | p_expression_let_simple_2 {nts nl a t} :
      Derives .nested_lets nts nl →
      Derives .let_expression
        (nts ++ .COMMA :: .LET :: .ID a :: .COLON :: [.TYPE t])
        (.Let (.vstr ",") (.vstr a) .vnone (.vstr t))
  | p_expression_let_initialized_1 {a t its i bts b} :
      Derives .expression its i →
      Derives .expression bts b →
      Derives .let_expression
        (.LET :: .ID a :: .COLON :: .TYPE t :: .ASSIGN :: (its ++ .IN :: bts))
        (.Let (.vstr a) (.vstr t) i b)
  | p_expression_let_initialized_2 {nts nl a t ets e} :
      Derives .nested_lets nts nl →
      Derives .expression ets e →
      Derives .let_expression
        (nts ++ .COMMA :: .LET :: .ID a :: .COLON :: .TYPE t :: .ASSIGN :: ets)
        (.Let (.vstr ",") (.vstr a) (.vstr t) e)
  | p_inner_lets_simple_1 {a t bts b} :
      Derives .expression bts b →
      Derives .nested_lets (.ID a :: .COLON :: .TYPE t :: .IN :: bts)
        (.Let (.vstr a) (.vstr t) .vnone b)
  | p_inner_lets_simple_2 {nts nl a t} :
      Derives .nested_lets nts nl →
      Derives .nested_lets (nts ++ .COMMA :: .ID a :: .COLON :: [.TYPE t])
        (.Let nl (.vstr a) .vnone (.vstr t))
  | p_inner_lets_initialized_1 {a t its i bts b} :
      Derives .expression its i →
      Derives .expression bts b →
      Derives .nested_lets
        (.ID a :: .COLON :: .TYPE t :: .ASSIGN :: (its ++ .IN :: bts))
        (.Let (.vstr a) (.vstr t) i b)
  | p_inner_lets_initialized_2 {nts nl a t ets e} :
      Derives .nested_lets nts nl →
      Derives .expression ets e →
      Derives .nested_lets
        (nts ++ .COMMA :: .ID a :: .COLON :: .TYPE t :: .ASSIGN :: ets)
        (.Let nl (.vstr a) (.vstr t) e)
  | p_expression_case {sts s ats as_} :
      Derives .expression sts s →
      Derives .actions_list ats as_ →
      Derives .expression (.CASE :: (sts ++ .OF :: (ats ++ [.ESAC]))) (.Case s as_)
  | p_actions_list_1 {ts a} :
      Derives .action ts a →
      Derives .actions_list ts (.vtuple [a])
  | p_actions_list_2 {ts1 as_ ts2 a} :
      Derives .actions_list ts1 (.vtuple as_) →
      Derives .action ts2 a →
      Derives .actions_list (ts1 ++ ts2) (.vtuple (as_ ++ [a]))
  | p_action_expression {a t ets e} :
      Derives .expression ets e →
      Derives .action (.ID a :: .COLON :: .TYPE t :: .ACTION :: (ets ++ [.SEMICOLON]))
        (.vtuple [.vstr a, .vstr t, e])
  | p_expression_new {t} :
      Derives .expression [.NEW, .TYPE t] (.NewObject (.vstr t))
  | p_expression_isvoid {ts e} :
      Derives .expression ts e →
      Derives .expression (.ISVOID :: ts) (.IsVoid e)
  | p_expression_integer_complement {ts e} :
      Derives .expression ts e →
      Derives .expression (.INT_COMP :: ts) (.IntegerComplement e)
  | p_expression_boolean_complement {ts e} :
      Derives .expression ts e →
      Derives .expression (.NOT :: ts) (.BooleanComplement e)
  | p_empty :
      Derives .empty [] .vnone

/-- A token string is let-headed-well-formed when, if it begins with the
`LET` keyword, the next four tokens are an identifier, a colon, a type name
and then either `IN` or `ASSIGN`.  Every string any nonterminal of the
grammar derives satisfies this, which is what makes a comma directly after
a let binding's type underivable. -/
def letOk (ts : List Tok) : Prop :=
  ts.head? = some Tok.LET →
    ∃ a t k rest,
      ts = Tok.LET :: Tok.ID a :: Tok.COLON :: Tok.TYPE t :: k :: rest ∧
        (k = Tok.IN ∨ k = Tok.ASSIGN)

/-- A PLY token as `p_error` (src/parser.py) reads it: `value` is the
matched text, `type` the token type tag, `lineno` and `lexpos` the source
position PLY attaches. -/
structure YaccToken : Type where
  value : String
  type : String
  lineno : Nat
  lexpos : Nat

/-- The diagnostic string `p_error` interpolates for an unexpected token
(src/parser.py line 663). -/
def p_error_message (tok : YaccToken) : String :=
  "Syntax error! Line: " ++ toString tok.lineno ++ ", position: " ++
    toString tok.lexpos ++ ", character: " ++ tok.value ++ ", type: " ++ tok.type

/-- The `p_error` hook of `CoolPyParser` (src/parser.py lines 656-665).
Python mutates `self.error_list`, prints, and may call `self.parser.errok()`;
the model returns the new error list, the lines printed to the terminal, and
whether `errok()` was called (resuming recognition).  On end of input
(`parse is None`) the hook only prints; on a token it appends one formatted
string to the error list and resumes. -/
def p_error (error_list : List String) (parse : Option YaccToken) :
    List String × List String × Bool :=
  match parse with
  | Option.none => (error_list, ["Error! Unexpected end of input!"], false)
  | some tok => (error_list ++ [p_error_message tok], [], true)

/-- A lex token as `t_error` (src/lexer.py) reads it: `value` is the rest of
the input text, `lineno` the current line. -/
structure LexToken : Type where
  value : String
  lineno : Nat

/-- The `t_error` hook of `CoolPyLexer` (src/lexer.py lines 207-209): prints
one line about the illegal character and skips one character.  Returns the
printed lines and the skip count; nothing is recorded anywhere. -/
def t_error (token : LexToken) : List String × Nat :=
  (["Illegal character! Line: " ++ toString token.lineno ++ ", character: " ++
      token.value.take 1], 1)

/-- Operator fixity as PLY's `precedence` declaration writes it. -/
inductive Assoc : Type where
  | left
  | right
  | nonassoc
  deriving DecidableEq

/-- The `precedence` table of `CoolPyParser` (src/parser.py lines 90-100),
verbatim: PLY reads the tuple from lowest to highest binding strength. -/
def precedence : List (Assoc × List String) :=
  [(Assoc.right, ["ASSIGN"]),
   (Assoc.right, ["NOT"]),
   (Assoc.nonassoc, ["LTEQ", "LT", "EQ"]),
   (Assoc.left, ["PLUS", "MINUS"]),
   (Assoc.left, ["MULTIPLY", "DIVIDE"]),
   (Assoc.right, ["ISVOID"]),
   (Assoc.right, ["INT_COMP"]),
   (Assoc.left, ["AT"]),
   (Assoc.left, ["DOT"])]

/-- Helper walking the precedence rows, numbering them from `i` upward. -/
def token_level_aux : Nat → List (Assoc × List String) → String → Option (Nat × Assoc)
  | _, [], _ => Option.none
  | i, (a, toks) :: rest, t =>
      if t ∈ toks then some (i, a) else token_level_aux (i + 1) rest t

/-- The numeric precedence level and fixity PLY assigns a token from the
`precedence` table: row 1 is the lowest (loosest-binding) level, exactly as
`ply.yacc` numbers the rows of the tuple. -/
def token_level (t : String) : Option (Nat × Assoc) :=
  token_level_aux 1 precedence t

/-- How a shift-reduce conflict is resolved. -/
inductive ConflictResolution : Type where
  | shift
  | reduce
  | error
  deriving DecidableEq

/-- PLY's documented resolution of a shift-reduce conflict between a rule
whose precedence comes from terminal `rule_tok` and lookahead `look_tok`:
reduce when the lookahead's level is lower, shift when higher, and on equal
levels reduce for `left`, shift for `right`, and error for `nonassoc`
(ply.yacc; tokens without a table entry default to shift). -/
def resolve_shift_reduce (rule_tok look_tok : String) : ConflictResolution :=
  match token_level rule_tok, token_level look_tok with
  | some (rl, ra), some (sl, _) =>
      if sl < rl then ConflictResolution.reduce
      else if rl < sl then ConflictResolution.shift
      else
        match ra with
        | Assoc.left => ConflictResolution.reduce
        | Assoc.right => ConflictResolution.shift
        | Assoc.nonassoc => ConflictResolution.error
  | _, _ => ConflictResolution.shift

/-- The module-level constant `UNBOXED_PRIMITIVE_VALUE_TYPE` of
src/semanalyser.py. -/
def UNBOXED_PRIMITIVE_VALUE_TYPE : String := "__prim_slot"

/-- The module-level constant `IO_CLASS` of src/semanalyser.py. -/
def IO_CLASS : String := "IO"

/-- The module-level constant `OBJECT_CLASS` of src/semanalyser.py. -/
def OBJECT_CLASS : String := "Object"

/-- The module-level constant `INTEGER_CLASS` of src/semanalyser.py. -/
def INTEGER_CLASS : String := "Int"

/-- The module-level constant `BOOLEAN_CLASS` of src/semanalyser.py. -/
def BOOLEAN_CLASS : String := "Bool"

/-- The module-level constant `STRING_CLASS` of src/semanalyser.py. -/
def STRING_CLASS : String := "String"

/-- Every name src/semanalyser.py defines at module level (its six constants
and three class statements).  The file contains no import statement, so
these and Python's builtins are all a name in the module can resolve to. -/
def semanalyser_module_names : List String :=
  ["UNBOXED_PRIMITIVE_VALUE_TYPE", "IO_CLASS", "OBJECT_CLASS", "INTEGER_CLASS",
   "BOOLEAN_CLASS", "STRING_CLASS", "SemanticAnalysisError",
   "SemanticAnalysisWarning", "PyCoolSemanticAnalyser"]

/-- The Python builtins the module's code mentions that really are builtins
(available without any import). -/
def semanalyser_builtin_names : List String :=
  ["ValueError", "TypeError", "isinstance", "super", "object", "dict", "set",
   "Exception", "Warning"]

/-- Every attribute the class `PyCoolSemanticAnalyser` defines
(src/semanalyser.py lines 20-49): only `__init__` and `transform`; the four
pass methods `transform` calls are absent. -/
def pycool_semantic_analyser_attrs : List String :=
  ["__init__", "transform"]

/-- The Python exceptions the `transform` model can raise. -/
inductive PyExc : Type where
  | valueError (msg : String)
  | typeError (msg : String)
  | nameError (name : String)
  | attributeError (name : String)
  deriving DecidableEq

/-- Resolution of a bare name inside src/semanalyser.py: module scope, then
builtins; an unresolvable name raises `NameError` as in Python. -/
def lookup_name (n : String) : Except PyExc Unit :=
  if n ∈ semanalyser_module_names ∨ n ∈ semanalyser_builtin_names then Except.ok ()
  else Except.error (PyExc.nameError n)

/-- Resolution of `self.<n>` on a `PyCoolSemanticAnalyser` instance for the
method names `transform` calls: a missing attribute raises
`AttributeError` as in Python. -/
def lookup_method (n : String) : Except PyExc Unit :=
  if n ∈ pycool_semantic_analyser_attrs then Except.ok ()
  else Except.error (PyExc.attributeError n)

/-- Whether a value is an `AST.Program` instance. -/
def isProgram : PyObj → Bool
  | .Program _ => true
  | _ => false

/-- The `transform` method of `PyCoolSemanticAnalyser` (src/semanalyser.py
lines 35-49), step by step: `None` raises `ValueError`; otherwise the
`isinstance(program_ast, AST.Program)` test first evaluates the name `AST`,
which the module never binds; were that to succeed, a non-`Program` value
would raise `TypeError`, and the four `self._...` pass calls would each
resolve an attribute the class never defines. -/
def transform (program_ast : Option PyObj) : Except PyExc PyObj :=
  match program_ast with
  | Option.none => Except.error (PyExc.valueError "Program AST object cannot be None!")
  | some ast => do
      lookup_name "AST"
      if isProgram ast then do
        lookup_method "_init_collections"
        lookup_method "_default_undefined_parent_classes_to_object"
        lookup_method "_invalidate_inheritance_from_builtin_classes"
        lookup_method "_check_cyclic_inheritance_relations"
        Except.ok ast
      else
        Except.error (PyExc.typeError "Program AST object is not of type \"AST.Program\"!")

/-- Modelled from the spec: the first hierarchy-builder pass
`_default_undefined_parent_classes_to_object`, which `transform` invokes but
whose body is absent from src/semanalyser.py.  Spec section 4.2 pass 1: "any
class without an explicit parent is assigned parent `Object`".  Input and
output are (class name, parent) pairs, the input parent `Option.none` when
undefined. -/
def default_undefined_parent_classes_to_object
    (classes : List (String × Option String)) : List (String × String) :=
  classes.map fun c => (c.1, c.2.getD OBJECT_CLASS)

/-- Whether a declared parent is one of the sealed primitive classes, using
the constants of src/semanalyser.py lines 1-6. -/
def is_sealed_parent (p : String) : Prop :=
  p = INTEGER_CLASS ∨ p = BOOLEAN_CLASS ∨ p = STRING_CLASS

instance (p : String) : Decidable (is_sealed_parent p) := by
  unfold is_sealed_parent
  infer_instance

/-- Modelled from the spec: the hierarchy-builder pass
`_invalidate_inheritance_from_builtin_classes`, which `transform` invokes
but whose body is absent from src/semanalyser.py.  Spec section 4.2 pass 2:
"rejects any class declaring a parent from the fixed sealed set
`{Int, Bool, String}` ...; flags it as an error, does not add the
inheritance edge (treats the offending class as inheriting from `Object`
instead, to allow further checks to proceed)".  Input: (class name, declared
parent) pairs; output: the inheritance edges actually added and the errors
flagged. -/
def invalidate_inheritance_from_builtin_classes
    (classes : List (String × String)) : List (String × String) × List String :=
  (classes.map fun c =>
      if is_sealed_parent c.2 then (c.1, OBJECT_CLASS) else c,
   classes.filterMap fun c =>
      if is_sealed_parent c.2 then
        some ("Class " ++ c.1 ++ " cannot inherit from sealed class " ++ c.2)
      else Option.none)

/-- Modelled from the spec: the ancestor chain underlying conformance, for
the type checker that is absent from src/.  Spec section 4.4: conformance
holds "iff `A == B`, or `B` is an ancestor of `A` in the inheritance graph
(found by walking `A`'s parent chain up to and including the root)".
`pm` maps a class to its declared parent (`Option.none` for the root);
`ancestors pm fuel a` is `some` chain when the walk reaches a parentless
class within `fuel` steps, `Option.none` when the fuel runs out first. -/
def ancestors (pm : String → Option String) : Nat → String → Option (List String)
  | 0, a =>
      match pm a with
      | Option.none => some []
      | some _ => Option.none
  | fuel + 1, a =>
      match pm a with
      | Option.none => some []
      | some p => (ancestors pm fuel p).map fun l => p :: l

/-- Modelled from the spec: conformance `A <= B` (spec section 4.4), true
iff `A = B` or `B` occurs on `A`'s parent chain. -/
def conforms (pm : String → Option String) (fuel : Nat) (a b : String) : Prop :=
  a = b ∨ b ∈ (ancestors pm fuel a).getD []

instance (pm : String → Option String) (fuel : Nat) (a b : String) :
    Decidable (conforms pm fuel a b) := by
  unfold conforms
  infer_instance

/-- A three-class inheritance graph (B inherits A inherits Object) used to
instantiate the conformance theorem on concrete data. -/
def sample_parent_map : String → Option String := fun s =>
  if s = "B" then some "A" else if s = "A" then some OBJECT_CLASS else Option.none

theorem letOk_nil : letOk [] := by
  intro h
  simp [letOk] at h

theorem letOk_cons {t : Tok} (h : t ≠ Tok.LET) (r : List Tok) : letOk (t :: r) := by
  intro hh
  simp only [List.head?] at hh
  exact absurd (Option.some.inj hh) h

theorem letOk_shape {a t : String} (k : Tok) (rest : List Tok)
    (hk : k = Tok.IN ∨ k = Tok.ASSIGN) :
    letOk (Tok.LET :: Tok.ID a :: Tok.COLON :: Tok.TYPE t :: k :: rest) :=
  fun _ => ⟨a, t, k, rest, rfl, hk⟩

theorem letOk_append {s1 s2 : List Tok} (h1 : letOk s1) (h2 : letOk s2) :
    letOk (s1 ++ s2) := by
  cases s1 with
  | nil => simpa using h2
  | cons t r =>
    intro hh
    simp only [List.cons_append, List.head?] at hh
    obtain rfl : t = Tok.LET := Option.some.inj hh
    obtain ⟨a, ty, k, rest, heq, hk⟩ := h1 rfl
    obtain rfl : r = Tok.ID a :: Tok.COLON :: Tok.TYPE ty :: k :: rest := by
      injection heq
    exact ⟨a, ty, k, rest ++ s2, by simp, hk⟩

/-- Every token string derivable from any nonterminal of the grammar is
let-headed-well-formed: the only productions that put the `LET` keyword
first continue `ID COLON TYPE` and then `IN` or `ASSIGN`. -/
theorem derives_letOk {nt : NT} {ts : List Tok} {v : PyObj} (h : Derives nt ts v) :
    letOk ts := by
  induction h
  all_goals first
    | exact letOk_nil
    | assumption
    | exact letOk_shape _ _ (Or.inl rfl)
    | exact letOk_shape _ _ (Or.inr rfl)
    | exact letOk_cons (by simp) _
    | (apply letOk_append <;>
        first
          | assumption
          | exact letOk_cons (by simp) _
          | (apply letOk_append <;> assumption))

theorem ancestors_fuel_succ {pm : String → Option String} {fuel : Nat} {a : String}
    {l : List String} (h : ancestors pm fuel a = some l) :
    ancestors pm (fuel + 1) a = some l := by
  induction fuel generalizing a l with
  | zero =>
    cases hpa : pm a with
    | none =>
      simp only [ancestors, hpa] at h ⊢
      exact h
    | some p => simp [ancestors, hpa] at h
  | succ n ih =>
    cases hpa : pm a with
    | none =>
      simp only [ancestors, hpa] at h ⊢
      exact h
    | some p =>
      simp only [ancestors, hpa, Option.map_eq_some'] at h ⊢
      obtain ⟨lp, hlp, rfl⟩ := h
      exact ⟨lp, ih hlp, rfl⟩

theorem ancestors_mem {pm : String → Option String} {fuel : Nat} {a b : String}
    {la : List String} (h : ancestors pm fuel a = some la) (hb : b ∈ la) :
    ∃ lb, ancestors pm fuel b = some lb ∧ ∀ x ∈ lb, x ∈ la := by
  induction fuel generalizing a la with
  | zero =>
    cases hpa : pm a with
    | none =>
      simp only [ancestors, hpa, Option.some.injEq] at h
      subst h
      exact absurd hb (List.not_mem_nil b)
    | some p => simp [ancestors, hpa] at h
  | succ n ih =>
    cases hpa : pm a with
    | none =>
      simp only [ancestors, hpa, Option.some.injEq] at h
      subst h
      exact absurd hb (List.not_mem_nil b)
    | some p =>
      simp only [ancestors, hpa, Option.map_eq_some'] at h
      obtain ⟨lp, hlp, rfl⟩ := h
      rcases List.mem_cons.mp hb with rfl | hbp
      · exact ⟨lp, ancestors_fuel_succ hlp, fun x hx => List.mem_cons_of_mem _ hx⟩
      · obtain ⟨lb, hlb, hsub⟩ := ih hlp hbp
        exact ⟨lb, ancestors_fuel_succ hlb,
          fun x hx => List.mem_cons_of_mem _ (hsub x hx)⟩

/-- Claim C1: a class declaration with no explicit inherits clause (its
third token is not `INHERITS`) yields a `Class` node whose parent field is
the string `Object` (production `p_class`, src/parser.py lines 142-146);
and the spec-modelled first hierarchy-builder pass assigns parent `Object`
to every class whose parent is undefined. -/
theorem class_parent_defaults_to_object :
    (∀ (ts : List Tok) (v : PyObj), Derives NT.clazz ts v →
      ts[2]? ≠ some Tok.INHERITS →
      ∃ n fs, v = PyObj.Class (PyObj.vstr n) (PyObj.vstr "Object") fs) ∧
    (∀ (l : List (String × Option String)) (n : String),
      (n, Option.none) ∈ l →
      (n, OBJECT_CLASS) ∈ default_undefined_parent_classes_to_object l) := by
  constructor
  · intro ts v h hno
    cases h with
    | p_class hf => exact ⟨_, _, rfl⟩
    | p_class_inherits hf => exact absurd (by simp) hno
  · intro l n hmem
    unfold default_undefined_parent_classes_to_object
    exact List.mem_map.mpr ⟨(n, Option.none), hmem, rfl⟩

/-- Witness for C1 at a concrete class declaration `class Main { }` and a
concrete one-class table with undefined parent. -/
theorem class_parent_defaults_to_object_witness :
    (∃ n fs, PyObj.Class (PyObj.vstr "Main") (PyObj.vstr "Object") (PyObj.vtuple []) =
        PyObj.Class (PyObj.vstr n) (PyObj.vstr "Object") fs) ∧
    ("Main", OBJECT_CLASS) ∈
      default_undefined_parent_classes_to_object [("Main", Option.none)] :=
  ⟨class_parent_defaults_to_object.1
      [Tok.CLASS, Tok.TYPE "Main", Tok.LBRACE, Tok.RBRACE]
      (PyObj.Class (PyObj.vstr "Main") (PyObj.vstr "Object") (PyObj.vtuple []))
      (Derives.p_class (Derives.p_features_list_optional_2 Derives.p_empty))
      (by decide),
   class_parent_defaults_to_object.2 [("Main", Option.none)] "Main" (by simp)⟩

/-- Claim C2 (the code-bug theorem): the token stream of
`let x : Int, y : String in x` — a let with two comma-separated bindings —
derives no expression at all: the grammar's only `LET`-headed productions
demand `IN` or `ASSIGN` right after the first binding's type, so the comma
is a syntax error and no right-nested `Let` chain is ever built. -/
theorem let_multiple_bindings_not_derivable :
    ¬ ∃ v, Derives NT.expression
      [Tok.LET, Tok.ID "x", Tok.COLON, Tok.TYPE "Int", Tok.COMMA,
       Tok.ID "y", Tok.COLON, Tok.TYPE "String", Tok.IN, Tok.ID "x"] v := by
  rintro ⟨v, h⟩
  obtain ⟨a, t, k, rest, heq, hk⟩ := derives_letOk h rfl
  rcases hk with rfl | rfl <;> simp at heq

/-- Claim C3: for every non-`None` input, `transform` raises before
returning — evaluating `AST.Program` in its `isinstance` test raises
`NameError` because the module never binds `AST` — and the four pass
methods it would call, as well as `defaultdict`, are likewise unbound, so
no hierarchy validation ever completes. -/
theorem transform_always_raises_before_returning :
    (∀ ast : PyObj, transform (some ast) = Except.error (PyExc.nameError "AST")) ∧
    "AST" ∉ semanalyser_module_names ∧
    "AST" ∉ semanalyser_builtin_names ∧
    "defaultdict" ∉ semanalyser_module_names ∧
    "defaultdict" ∉ semanalyser_builtin_names ∧
    "_init_collections" ∉ pycool_semantic_analyser_attrs ∧
    "_default_undefined_parent_classes_to_object" ∉ pycool_semantic_analyser_attrs ∧
    "_invalidate_inheritance_from_builtin_classes" ∉ pycool_semantic_analyser_attrs ∧
    "_check_cyclic_inheritance_relations" ∉ pycool_semantic_analyser_attrs :=
  ⟨fun _ => rfl, by decide, by decide, by decide, by decide, by decide, by decide,
   by decide, by decide⟩

/-- Claim C4: the parser's precedence table has exactly the nine levels the
spec states, `ASSIGN` loosest (level 1, right-associative) through `DOT`
tightest (level 9, left-associative), with `LTEQ`/`LT`/`EQ` non-associative
at level 3 — so by PLY's conflict-resolution rules a chained comparison is
a syntax error, `+` at equal level reduces (left), and `<-` at equal level
shifts (right). -/
theorem precedence_table_nine_levels :
    precedence.length = 9 ∧
    token_level "ASSIGN" = some (1, Assoc.right) ∧
    token_level "NOT" = some (2, Assoc.right) ∧
    token_level "LTEQ" = some (3, Assoc.nonassoc) ∧
    token_level "LT" = some (3, Assoc.nonassoc) ∧
    token_level "EQ" = some (3, Assoc.nonassoc) ∧
    token_level "PLUS" = some (4, Assoc.left) ∧
    token_level "MINUS" = some (4, Assoc.left) ∧
    token_level "MULTIPLY" = some (5, Assoc.left) ∧
    token_level "DIVIDE" = some (5, Assoc.left) ∧
    token_level "ISVOID" = some (6, Assoc.right) ∧
    token_level "INT_COMP" = some (7, Assoc.right) ∧
    token_level "AT" = some (8, Assoc.left) ∧
    token_level "DOT" = some (9, Assoc.left) ∧
    resolve_shift_reduce "LT" "LT" = ConflictResolution.error ∧
    resolve_shift_reduce "LT" "LTEQ" = ConflictResolution.error ∧
    resolve_shift_reduce "EQ" "EQ" = ConflictResolution.error ∧
    resolve_shift_reduce "PLUS" "MINUS" = ConflictResolution.reduce ∧
    resolve_shift_reduce "ASSIGN" "ASSIGN" = ConflictResolution.shift ∧
    resolve_shift_reduce "DOT" "PLUS" = ConflictResolution.reduce := by
  decide

/-- Claim C5 counterexample: at end of input `p_error` only prints the
distinguished message — the recorded error list is unchanged, so no
diagnostic is produced. -/
theorem p_error_eof_prints_instead_of_recording :
    p_error [] Option.none = ([], ["Error! Unexpected end of input!"], false) := rfl

/-- Claim C5 (amended): on an unexpected token the engine appends exactly
one diagnostic string carrying the token's line, position, literal text and
the token's own type tag (not an expected-context description), and calls
`errok()` to resume, so one parse accumulates many diagnostics; at end of
input it prints `Error! Unexpected end of input!` instead of recording a
diagnostic. -/
theorem p_error_records_token_diagnostic_and_resumes :
    (∀ (el : List String) (tok : YaccToken),
      p_error el (some tok) = (el ++ [p_error_message tok], [], true)) ∧
    (∀ tok : YaccToken,
      p_error_message tok =
        "Syntax error! Line: " ++ toString tok.lineno ++ ", position: " ++
          toString tok.lexpos ++ ", character: " ++ tok.value ++ ", type: " ++
          tok.type) ∧
    (∀ el : List String,
      p_error el Option.none = (el, ["Error! Unexpected end of input!"], false)) :=
  ⟨fun _ _ => rfl, fun _ => rfl, fun _ => rfl⟩

/-- Claim C6 (spec-modelled): a class declaring a sealed parent (`Int`,
`Bool` or `String`) is flagged as an error, no edge to the sealed parent
survives in the output, and the class is re-parented to `Object`. -/
theorem sealed_parent_guard (classes : List (String × String)) (n p : String)
    (hmem : (n, p) ∈ classes) (hseal : is_sealed_parent p) :
    (n, OBJECT_CLASS) ∈ (invalidate_inheritance_from_builtin_classes classes).1 ∧
    (∀ e ∈ (invalidate_inheritance_from_builtin_classes classes).1,
      ¬ is_sealed_parent e.2) ∧
    (invalidate_inheritance_from_builtin_classes classes).2 ≠ [] := by
  refine ⟨?_, ?_, ?_⟩
  · unfold invalidate_inheritance_from_builtin_classes
    refine List.mem_map.mpr ⟨(n, p), hmem, ?_⟩
    simp [hseal]
  · intro e he
    unfold invalidate_inheritance_from_builtin_classes at he
    obtain ⟨c, hc, rfl⟩ := List.mem_map.mp he
    by_cases h : is_sealed_parent c.2
    · simp only [if_pos h]
      decide
    · simpa only [if_neg h] using h
  · intro hnil
    have hin : ("Class " ++ n ++ " cannot inherit from sealed class " ++ p) ∈
        (invalidate_inheritance_from_builtin_classes classes).2 := by
      unfold invalidate_inheritance_from_builtin_classes
      exact List.mem_filterMap.mpr ⟨(n, p), hmem, by simp [hseal]⟩
    rw [hnil] at hin
    exact absurd hin (List.not_mem_nil _)

/-- Witness for C6 at the concrete program `class A inherits Int { }`. -/
theorem sealed_parent_guard_witness :
    ("A", OBJECT_CLASS) ∈
      (invalidate_inheritance_from_builtin_classes [("A", INTEGER_CLASS)]).1 ∧
    (∀ e ∈ (invalidate_inheritance_from_builtin_classes [("A", INTEGER_CLASS)]).1,
      ¬ is_sealed_parent e.2) ∧
    (invalidate_inheritance_from_builtin_classes [("A", INTEGER_CLASS)]).2 ≠ [] :=
  sealed_parent_guard [("A", INTEGER_CLASS)] "A" INTEGER_CLASS (by simp)
    (Or.inl rfl)

/-- Claim C7 counterexample: the lexer's `t_error` prints an
illegal-character message as free text to the terminal (and records
nothing), so not every diagnostic is a structured record left to the
caller. -/
theorem t_error_prints_free_text :
    t_error (LexToken.mk "?rest" 3) =
      (["Illegal character! Line: 3, character: ?"], 1) := rfl

/-- Claim C7 (amended): diagnostics are plain interpolated strings, not
structured records — the parser appends one free-text string per syntax
error to its error list, and both the lexer (`t_error`) and the parser
(`p_error` at end of input) print diagnostics directly to the terminal. -/
theorem diagnostics_are_free_text_strings :
    (∀ tok : LexToken,
      t_error tok =
        (["Illegal character! Line: " ++ toString tok.lineno ++ ", character: " ++
            tok.value.take 1], 1)) ∧
    (∀ (el : List String) (tok : YaccToken),
      (p_error el (some tok)).1 = el ++ [p_error_message tok]) ∧
    (∀ el : List String,
      (p_error el Option.none).2.1 = ["Error! Unexpected end of input!"]) :=
  ⟨fun _ => rfl, fun _ _ => rfl, fun _ => rfl⟩

/-- Claim C8: calling `transform` with `None` raises `ValueError` at once,
and calling it with any value that is not a `Program` AST also raises (in
this code a `NameError`, since the `isinstance` test's `AST` is unbound):
either way the invocation aborts with an exception, yielding neither a
partial result nor a diagnostics list. -/
theorem transform_none_or_non_program_fatal :
    (transform Option.none =
      Except.error (PyExc.valueError "Program AST object cannot be None!")) ∧
    (∀ v : PyObj, isProgram v = false →
      ∃ e, transform (some v) = Except.error e) :=
  ⟨rfl, fun _ _ => ⟨PyExc.nameError "AST", rfl⟩⟩

/-- Claim C9 (spec-modelled): conformance is reflexive, and transitive for
every class whose ancestor walk terminates within the given fuel. -/
theorem conforms_refl_and_trans :
    (∀ (pm : String → Option String) (fuel : Nat) (a : String),
      conforms pm fuel a a) ∧
    (∀ (pm : String → Option String) (fuel : Nat) (a b c : String)
      (la : List String), ancestors pm fuel a = some la →
      conforms pm fuel a b → conforms pm fuel b c → conforms pm fuel a c) := by
  constructor
  · intro pm fuel a
    exact Or.inl rfl
  · intro pm fuel a b c la ha hab hbc
    rcases hab with rfl | hb
    · exact hbc
    · rcases hbc with rfl | hc
      · exact Or.inr hb
      · rw [ha] at hb
        simp only [Option.getD_some] at hb
        obtain ⟨lb, hlb, hsub⟩ := ancestors_mem ha hb
        rw [hlb] at hc
        simp only [Option.getD_some] at hc
        refine Or.inr ?_
        rw [ha]
        simpa using hsub c hc

/-- Witness for C9 on the concrete graph B inherits A inherits Object:
reflexivity at `B`, and transitivity `B <= A`, `A <= Object` giving
`B <= Object`. -/
theorem conforms_refl_and_trans_witness :
    conforms sample_parent_map 3 "B" "B" ∧
    conforms sample_parent_map 3 "B" "Object" :=
  ⟨conforms_refl_and_trans.1 sample_parent_map 3 "B",
   conforms_refl_and_trans.2 sample_parent_map 3 "B" "A" "Object" ["A", "Object"]
     (by decide) (by decide) (by decide)⟩

/-- Claim C10: wrapping any derivable expression in parentheses derives the
very same semantic value — `p_expression_with_parenthesis` passes the inner
value through and no parenthesis node variant exists, so parentheses leave
no trace in the tree. -/
theorem parenthesized_expression_same_ast (ts : List Tok) (v : PyObj)
    (h : Derives NT.expression ts v) :
    Derives NT.expression (Tok.LPAREN :: (ts ++ [Tok.RPAREN])) v :=
  Derives.p_expression_with_parenthesis h

/-- Witness for C10 at the concrete expression `(5)`: it parses to the same
`Integer` node as `5` alone. -/
theorem parenthesized_expression_same_ast_witness :
    Derives NT.expression [Tok.LPAREN, Tok.INTEGER 5, Tok.RPAREN]
      (PyObj.IntegerLit (PyObj.vint 5)) :=
  parenthesized_expression_same_ast [Tok.INTEGER 5] _
    Derives.p_expression_integer_constant
